import Mathlib

/-!
Verification of the valuation core of `DCF2.py` (GiorgosPard/DCF).

The four formula functions (`calculate_wacc`, `calculate_dcf`,
`calculate_ps_valuation`, the `negative_pe_and_fcf` dispatch predicate) and the
call sites that feed them are embedded over the rationals.  Python floats are
modelled as `ℚ`; a dictionary field that may be absent (`info.get(k, None)`) is
an `Option ℚ`, and `info.get(k, d)` with a numeric default `d` is `Option.getD`.
Python raises `ZeroDivisionError` on division by zero (also for floats), so a
second model `calculate_dcf_py` threads that exception through `Except`; the
total model `calculate_dcf` uses field division (`x / 0 = 0`) for the algebraic
claims, whose hypotheses keep every denominator nonzero.
-/

/-- `calculate_wacc` (DCF2.py lines 14-17):
`total_value = equity_value + debt_value`;
`wacc = (equity_value / total_value) * cost_of_equity
      + (debt_value / total_value) * cost_of_debt * (1 - tax_rate)`. -/
def calculate_wacc (equity_value debt_value cost_of_equity cost_of_debt tax_rate : ℚ) : ℚ :=
  let total_value := equity_value + debt_value
  (equity_value / total_value) * cost_of_equity +
    (debt_value / total_value) * cost_of_debt * (1 - tax_rate)

/-- The loop of `calculate_dcf` (DCF2.py lines 21-24):
`for i in range(num_years): discounted_fcf.append(fcf / ((1 + wacc) ** (i + 1)));
fcf = fcf * (1 + growth_rate)`.
State is the running `fcf` and the loop index `i`; the third argument counts the
remaining iterations.  Returns the accumulated list and the final `fcf`. -/
def dcf_loop (growth_rate wacc : ℚ) : ℚ → ℕ → ℕ → List ℚ × ℚ
  | fcf, _, 0 => ([], fcf)
  | fcf, i, Nat.succ rem =>
      let entry := fcf / (1 + wacc) ^ (i + 1)
      let rest := dcf_loop growth_rate wacc (fcf * (1 + growth_rate)) (i + 1) rem
      (entry :: rest.1, rest.2)

/-- `calculate_dcf` (DCF2.py lines 20-30), total model over `ℚ`.
Returns `(total_value, discounted_fcf, terminal_value)` as the Python function
does:
`terminal_value = (fcf * (1 + terminal_growth_rate)) / (wacc - terminal_growth_rate)`
with `fcf` the value left by the loop;
`discounted_terminal_value = terminal_value / ((1 + wacc) ** num_years)`;
`total_value = sum(discounted_fcf) + discounted_terminal_value`. -/
def calculate_dcf (fcf growth_rate wacc terminal_growth_rate : ℚ) (num_years : ℕ) :
    ℚ × List ℚ × ℚ :=
  let p := dcf_loop growth_rate wacc fcf 0 num_years
  let discounted_fcf := p.1
  let terminal_value := (p.2 * (1 + terminal_growth_rate)) / (wacc - terminal_growth_rate)
  let discounted_terminal_value := terminal_value / ((1 + wacc) ^ num_years)
  (discounted_fcf.sum + discounted_terminal_value, discounted_fcf, terminal_value)

/-- Python exception raised by `x / y` when `y == 0` (also for floats). -/
inductive PyError
  | zeroDivisionError
  deriving DecidableEq, Repr

/-- Python division: raises `ZeroDivisionError` when the divisor is zero. -/
def pyDiv (a b : ℚ) : Except PyError ℚ :=
  if b = 0 then Except.error PyError.zeroDivisionError else Except.ok (a / b)

/-- The loop of `calculate_dcf` with Python's division-by-zero exception
propagated explicitly. -/
def dcf_loop_py (growth_rate wacc : ℚ) : ℚ → ℕ → ℕ → Except PyError (List ℚ × ℚ)
  | fcf, _, 0 => Except.ok ([], fcf)
  | fcf, i, Nat.succ rem =>
      match pyDiv fcf ((1 + wacc) ^ (i + 1)) with
      | Except.error e => Except.error e
      | Except.ok entry =>
          match dcf_loop_py growth_rate wacc (fcf * (1 + growth_rate)) (i + 1) rem with
          | Except.error e => Except.error e
          | Except.ok rest => Except.ok (entry :: rest.1, rest.2)

/-- `calculate_dcf` (DCF2.py lines 20-30) with Python's division-by-zero
exception: the only way the function can fail is a `ZeroDivisionError` from one
of its three divisions; there is no validation and no typed domain error. -/
def calculate_dcf_py (fcf growth_rate wacc terminal_growth_rate : ℚ) (num_years : ℕ) :
    Except PyError (ℚ × List ℚ × ℚ) :=
  match dcf_loop_py growth_rate wacc fcf 0 num_years with
  | Except.error e => Except.error e
  | Except.ok p =>
      match pyDiv (p.2 * (1 + terminal_growth_rate)) (wacc - terminal_growth_rate) with
      | Except.error e => Except.error e
      | Except.ok terminal_value =>
          match pyDiv terminal_value ((1 + wacc) ^ num_years) with
          | Except.error e => Except.error e
          | Except.ok dtv => Except.ok (p.1.sum + dtv, p.1, terminal_value)

/-- `calculate_ps_valuation` (DCF2.py lines 33-34): `sales * industry_ps_ratio`. -/
def calculate_ps_valuation (sales industry_ps_mult : ℚ) : ℚ :=
  sales * industry_ps_mult

/-- The dispatch predicate (DCF2.py lines 62-64):
`pe_ratio = info.get('trailingPE', None)`, `fcf = info.get('freeCashflow', None)`,
`negative_pe_and_fcf = (pe_ratio is not None and pe_ratio < 0)
                   and (fcf is not None and fcf < 0)`. -/
def negative_pe_and_fcf (pe fcf : Option ℚ) : Bool :=
  (match pe with
   | none => false
   | some p => decide (p < 0)) &&
  (match fcf with
   | none => false
   | some f => decide (f < 0))

/-- The P/S branch call site (DCF2.py lines 68-71):
`sales = info.get('totalRevenue', 0)` defaults a missing revenue to `0`;
`ps_valuation = calculate_ps_valuation(sales, industry_ps_ratio)`. -/
def ps_callsite_valuation (totalRevenue : Option ℚ) (industry_ps_mult : ℚ) : ℚ :=
  calculate_ps_valuation (totalRevenue.getD 0) industry_ps_mult

/-- The P/S branch per-share figure (DCF2.py line 71):
`fair_value_per_share = ps_valuation / info.get('sharesOutstanding', 1)`
defaults missing shares outstanding to `1`. -/
def ps_callsite_per_share (totalRevenue sharesOutstanding : Option ℚ)
    (industry_ps_mult : ℚ) : ℚ :=
  ps_callsite_valuation totalRevenue industry_ps_mult / sharesOutstanding.getD 1

/-- The primary branch per-share figure (DCF2.py line 141):
`fair_value_per_share = total_value / info.get('sharesOutstanding', 1)`
defaults missing shares outstanding to `1`. -/
def fair_value_per_share (total_value : ℚ) (sharesOutstanding : Option ℚ) : ℚ :=
  total_value / sharesOutstanding.getD 1

/-! ### Lemmas about the projection loop -/

/-- The loop emits exactly one entry per iteration. -/
theorem dcf_loop_length (g w : ℚ) (n : ℕ) :
    ∀ (fcf : ℚ) (i : ℕ), (dcf_loop g w fcf i n).1.length = n := by
  induction n with
  | zero => intro fcf i; rfl
  | succ rem ih => intro fcf i; simp [dcf_loop, ih]

/-- After the loop, the running `fcf` has been compounded once per iteration. -/
theorem dcf_loop_final (g w : ℚ) (n : ℕ) :
    ∀ (fcf : ℚ) (i : ℕ), (dcf_loop g w fcf i n).2 = fcf * (1 + g) ^ n := by
  induction n with
  | zero => intro fcf i; simp [dcf_loop]
  | succ rem ih =>
      intro fcf i
      rw [dcf_loop]
      simp only [ih]
      ring

/-- Closed form of the `k`-th emitted entry, for any starting state. -/
theorem dcf_loop_get (g w : ℚ) (n : ℕ) :
    ∀ (fcf : ℚ) (i k : ℕ), k < n →
      (dcf_loop g w fcf i n).1[k]? =
        some (fcf * (1 + g) ^ k / (1 + w) ^ (i + 1 + k)) := by
  induction n with
  | zero => intro fcf i k hk; omega
  | succ rem ih =>
      intro fcf i k hk
      cases k with
      | zero => simp [dcf_loop]
      | succ k =>
          have hk2 : k < rem := by omega
          have h2 := ih (fcf * (1 + g)) (i + 1) k hk2
          rw [dcf_loop]
          simp only [List.getElem?_cons_succ]
          rw [h2]
          have he : i + 1 + 1 + k = i + 1 + (k + 1) := by omega
          rw [he]
          congr 1
          ring

/-- Every emitted entry is positive when the state is positive and both growth
and discount factors are positive. -/
theorem dcf_loop_pos (g w : ℚ) (hg : 0 < 1 + g) (hw : 0 < 1 + w) (n : ℕ) :
    ∀ (fcf : ℚ) (i : ℕ), 0 < fcf → ∀ x ∈ (dcf_loop g w fcf i n).1, 0 < x := by
  induction n with
  | zero => intro fcf i hf x hx; simp [dcf_loop] at hx
  | succ rem ih =>
      intro fcf i hf x hx
      rw [dcf_loop] at hx
      simp only [List.mem_cons] at hx
      rcases hx with h | h
      · rw [h]; exact div_pos hf (pow_pos hw _)
      · exact ih (fcf * (1 + g)) (i + 1) (mul_pos hf hg) x h

/-- When the discount factor is nonzero no loop division can fail, so the
exception-aware loop refines the total one. -/
theorem dcf_loop_py_ok (g w : ℚ) (hw : (1 : ℚ) + w ≠ 0) (n : ℕ) :
    ∀ (fcf : ℚ) (i : ℕ),
      dcf_loop_py g w fcf i n = Except.ok (dcf_loop g w fcf i n) := by
  induction n with
  | zero => intro fcf i; rfl
  | succ rem ih =>
      intro fcf i
      rw [dcf_loop_py, dcf_loop, ih]
      simp [pyDiv, pow_ne_zero _ hw]

/-! ### Claim theorems -/

/-- Claim C1: for every input with `horizonYears ≥ 1` and each period
`i = 1 .. horizonYears`, entry `i - 1` of the `discountedCashFlows` sequence
returned by `calculate_dcf` is `initialFcf * (1+growthRate)^(i-1) / (1+discountRate)^i`;
in particular the first entry discounts the initial FCF itself, with no growth
applied before period 1. -/
theorem calculate_dcf_entry (fcf g w tg : ℚ) (n i : ℕ) (h1 : 1 ≤ i) (h2 : i ≤ n) :
    (calculate_dcf fcf g w tg n).2.1[i - 1]? =
      some (fcf * (1 + g) ^ (i - 1) / (1 + w) ^ i) := by
  have h := dcf_loop_get g w n fcf 0 (i - 1) (by omega)
  have he : 0 + 1 + (i - 1) = i := by omega
  rw [he] at h
  simpa [calculate_dcf] using h

/-- Witness for C1 at the spec's scenario A with period `i = 1`:
`discountedCashFlows[0] = 100 / 1.08`. -/
theorem calculate_dcf_entry_witness :
    (calculate_dcf 100 (1/20) (2/25) (1/50) 5).2.1[1 - 1]? =
      some (100 * (1 + 1/20) ^ (1 - 1) / (1 + 2/25) ^ 1) :=
  calculate_dcf_entry 100 (1/20) (2/25) (1/50) 5 1 (by norm_num) (by norm_num)

/-- Claim C2: for `horizonYears ≥ 1` and `discountRate ≠ terminalGrowthRate`,
the terminal value returned by `calculate_dcf` equals
`initialFcf * (1+growthRate)^horizonYears * (1+terminalGrowthRate) / (discountRate - terminalGrowthRate)`,
the Gordon-growth value anchored on the FCF one period past the horizon. -/
theorem calculate_dcf_terminal (fcf g w tg : ℚ) (n : ℕ) (h1 : 1 ≤ n) (h2 : w ≠ tg) :
    (calculate_dcf fcf g w tg n).2.2 = fcf * (1 + g) ^ n * (1 + tg) / (w - tg) := by
  simp [calculate_dcf, dcf_loop_final g w n fcf 0]

/-- Witness for C2 at the spec's scenario A. -/
theorem calculate_dcf_terminal_witness :
    (calculate_dcf 100 (1/20) (2/25) (1/50) 5).2.2 =
      100 * (1 + 1/20) ^ 5 * (1 + 1/50) / (2/25 - 1/50) :=
  calculate_dcf_terminal 100 (1/20) (2/25) (1/50) 5 (by norm_num) (by norm_num)

/-- Claim C3: for `horizonYears ≥ 1` and `discountRate ≠ terminalGrowthRate`,
the total present value returned by `calculate_dcf` is the sum of the discounted
cash flows plus `terminalValue / (1+discountRate)^horizonYears`. -/
theorem calculate_dcf_total (fcf g w tg : ℚ) (n : ℕ) (h1 : 1 ≤ n) (h2 : w ≠ tg) :
    (calculate_dcf fcf g w tg n).1 =
      ((calculate_dcf fcf g w tg n).2.1).sum +
        (calculate_dcf fcf g w tg n).2.2 / (1 + w) ^ n := by
  simp [calculate_dcf]

/-- Witness for C3 at the spec's scenario A. -/
theorem calculate_dcf_total_witness :
    (calculate_dcf 100 (1/20) (2/25) (1/50) 5).1 =
      ((calculate_dcf 100 (1/20) (2/25) (1/50) 5).2.1).sum +
        (calculate_dcf 100 (1/20) (2/25) (1/50) 5).2.2 / (1 + 2/25) ^ 5 :=
  calculate_dcf_total 100 (1/20) (2/25) (1/50) 5 (by norm_num) (by norm_num)

/-- Claim C4: for every capital structure with `equityValue + debtValue ≠ 0`,
`calculate_wacc` returns `(E/(E+D))·Re + (D/(E+D))·Rd·(1-Tc)`; consequently it
equals `costOfEquity` when `debtValue = 0` and `costOfDebt·(1-taxRate)` when
`equityValue = 0`. -/
theorem calculate_wacc_formula (E D Re Rd Tc : ℚ) (h : E + D ≠ 0) :
    calculate_wacc E D Re Rd Tc = (E / (E + D)) * Re + (D / (E + D)) * Rd * (1 - Tc) ∧
      (D = 0 → calculate_wacc E D Re Rd Tc = Re) ∧
      (E = 0 → calculate_wacc E D Re Rd Tc = Rd * (1 - Tc)) := by
  refine ⟨rfl, ?_, ?_⟩
  · intro hD
    subst hD
    have hE : E ≠ 0 := by simpa using h
    simp [calculate_wacc, div_self hE]
  · intro hE
    subst hE
    have hD : D ≠ 0 := by simpa using h
    simp [calculate_wacc, div_self hD]

/-- Witness for C4 at the spec's scenario B: E=800, D=200, Re=8%, Rd=5%, Tc=21%. -/
theorem calculate_wacc_formula_witness :
    calculate_wacc 800 200 (2/25) (1/20) (21/100) =
        (800 / (800 + 200)) * (2/25) + (200 / (800 + 200)) * (1/20) * (1 - 21/100) ∧
      ((200:ℚ) = 0 → calculate_wacc 800 200 (2/25) (1/20) (21/100) = 2/25) ∧
      ((800:ℚ) = 0 → calculate_wacc 800 200 (2/25) (1/20) (21/100) = (1/20) * (1 - 21/100)) :=
  calculate_wacc_formula 800 200 (2/25) (1/20) (21/100) (by norm_num)

/-- Claim C5: the P/S fallback path is taken (the predicate is true) if and only
if both the trailing P/E figure and the FCF figure are present and both strictly
negative; a missing figure on either side forces the primary path. -/
theorem negative_pe_and_fcf_iff (pe fcf : Option ℚ) :
    negative_pe_and_fcf pe fcf = true ↔
      ((∃ p, pe = some p ∧ p < 0) ∧ (∃ f, fcf = some f ∧ f < 0)) := by
  cases pe <;> cases fcf <;> simp [negative_pe_and_fcf]

/-- Claim C6 (code behavior at the failing input): at the spec's invalid-input
scenario `discountRate = terminalGrowthRate = 0.02` (with initialFcf = 100,
growthRate = 0.05, horizonYears = 5), `calculate_dcf` raises a bare
`ZeroDivisionError` from the terminal-value division.  There is no precondition
check and no typed domain error anywhere in the function, contradicting the
claim that a typed domain error is raised. -/
theorem calculate_dcf_py_equal_rates :
    calculate_dcf_py 100 (1/20) (1/50) (1/50) 5 =
      Except.error PyError.zeroDivisionError := by
  have hw : (1 : ℚ) + 1/50 ≠ 0 := by norm_num
  rw [calculate_dcf_py, dcf_loop_py_ok (1/20) (1/50) hw 5 100 0]
  norm_num [pyDiv]

/-- Claim C7 (code behavior at the failing input): with `totalRevenue` and
`sharesOutstanding` both absent, the P/S branch substitutes the numeric
defaults `0` and `1` and produces the numeric per-share value `0`; on the
primary branch with `sharesOutstanding` absent and a total value of `100`, the
default `1` yields the numeric per-share value `100`.  Both contradict the
claim that absent data fields are never replaced by numeric defaults. -/
theorem missing_data_defaults :
    ps_callsite_per_share none none (3/2) = 0 ∧
      fair_value_per_share 100 none = 100 := by
  constructor <;>
    norm_num [ps_callsite_per_share, ps_callsite_valuation, calculate_ps_valuation,
      fair_value_per_share]

/-- Claim C8: for `horizonYears ≥ 1`, `discountRate > terminalGrowthRate > -1`
and `growthRate > -1`, the `discountedCashFlows` list returned by
`calculate_dcf` has exactly `horizonYears` entries, and every entry is strictly
positive whenever `initialFcf > 0` and `discountRate > -1`. -/
theorem calculate_dcf_length_pos (fcf g w tg : ℚ) (n : ℕ) (h1 : 1 ≤ n)
    (h2 : tg < w) (h3 : -1 < tg) (h4 : -1 < g) :
    (calculate_dcf fcf g w tg n).2.1.length = n ∧
      (0 < fcf → -1 < w →
        ∀ x ∈ (calculate_dcf fcf g w tg n).2.1, 0 < x) := by
  constructor
  · simp [calculate_dcf, dcf_loop_length]
  · intro hf hw x hx
    have hg1 : 0 < 1 + g := by linarith
    have hw1 : 0 < 1 + w := by linarith
    have hx2 : x ∈ (dcf_loop g w fcf 0 n).1 := by simpa [calculate_dcf] using hx
    exact dcf_loop_pos g w hg1 hw1 n fcf 0 hf x hx2

/-- Witness for C8 at the spec's scenario A. -/
theorem calculate_dcf_length_pos_witness :
    (calculate_dcf 100 (1/20) (2/25) (1/50) 5).2.1.length = 5 ∧
      ((0:ℚ) < 100 → (-1:ℚ) < 2/25 →
        ∀ x ∈ (calculate_dcf 100 (1/20) (2/25) (1/50) 5).2.1, 0 < x) :=
  calculate_dcf_length_pos 100 (1/20) (2/25) (1/50) 5 (by norm_num) (by norm_num)
    (by norm_num) (by norm_num)

/-- Claim C9: with `num_years = 0` and `wacc ≠ terminal_growth_rate`,
`calculate_dcf` does not fail (the exception-aware model returns `ok`), the
`discountedCashFlows` list is empty, the terminal value is
`initialFcf * (1+terminal_growth_rate) / (wacc - terminal_growth_rate)` with no
growth applied, and the total equals that terminal value undiscounted. -/
theorem calculate_dcf_zero_years (fcf g w tg : ℚ) (h : w ≠ tg) :
    (calculate_dcf fcf g w tg 0).2.1 = [] ∧
      (calculate_dcf fcf g w tg 0).2.2 = fcf * (1 + tg) / (w - tg) ∧
      (calculate_dcf fcf g w tg 0).1 = fcf * (1 + tg) / (w - tg) ∧
      calculate_dcf_py fcf g w tg 0 = Except.ok (calculate_dcf fcf g w tg 0) := by
  have hsub : w - tg ≠ 0 := sub_ne_zero.mpr h
  refine ⟨rfl, rfl, ?_, ?_⟩
  · simp [calculate_dcf, dcf_loop]
  · rw [calculate_dcf_py]
    simp [calculate_dcf, dcf_loop, dcf_loop_py, pyDiv, hsub]

/-- Witness for C9: initialFcf = 100, growthRate = 5%, wacc = 8%,
terminalGrowthRate = 2%, zero projection years. -/
theorem calculate_dcf_zero_years_witness :
    (calculate_dcf 100 (1/20) (2/25) (1/50) 0).2.1 = [] ∧
      (calculate_dcf 100 (1/20) (2/25) (1/50) 0).2.2 = 100 * (1 + 1/50) / (2/25 - 1/50) ∧
      (calculate_dcf 100 (1/20) (2/25) (1/50) 0).1 = 100 * (1 + 1/50) / (2/25 - 1/50) ∧
      calculate_dcf_py 100 (1/20) (2/25) (1/50) 0 =
        Except.ok (calculate_dcf 100 (1/20) (2/25) (1/50) 0) :=
  calculate_dcf_zero_years 100 (1/20) (2/25) (1/50) (by norm_num)

/-- Claim C10: `calculate_wacc` is scale-invariant in the capital structure:
scaling equity and debt by any `c > 0` leaves the result unchanged whenever
`equity_value + debt_value ≠ 0`. -/
theorem calculate_wacc_scale_invariant (c E D Re Rd Tc : ℚ) (hc : 0 < c)
    (h : E + D ≠ 0) :
    calculate_wacc (c * E) (c * D) Re Rd Tc = calculate_wacc E D Re Rd Tc := by
  have hc0 : c ≠ 0 := ne_of_gt hc
  have hsum : c * E + c * D = c * (E + D) := by ring
  simp only [calculate_wacc, hsum, mul_div_mul_left E (E + D) hc0,
    mul_div_mul_left D (E + D) hc0]

/-- Witness for C10 at the spec's scenario B scaled by `c = 3`. -/
theorem calculate_wacc_scale_invariant_witness :
    calculate_wacc (3 * 800) (3 * 200) (2/25) (1/20) (21/100) =
      calculate_wacc 800 200 (2/25) (1/20) (21/100) :=
  calculate_wacc_scale_invariant 3 800 200 (2/25) (1/20) (21/100) (by norm_num)
    (by norm_num)
